import Mathlib

/-!
Verification of the MeshCore test-log analysis tools.

This file gives a shallow embedding, in Lean 4, of the log ingestion and
network-statistics aggregation code of the MeshCore repository:

* `examples/companion_radio/analyze_test_log.py` — batch log parser
  (`parse_log_file`) and network statistics (`analyze_network`);
* `tools/mesh_test_app/analyze_logs.py` — CSV batch parser (`analyze_csv`)
  and the loss/SNR aggregation in `main`;
* `tools/mesh_test_app/main.py` — the streaming line splitter
  (`_update_serial`) and the line parser (`_parse_line`).

Lines of text are modelled as `List Char`; Python string helpers (`strip`,
`split`, `int(...)`, `startswith`) are translated character by character.
Fallible Python code (`int` raising `ValueError`) is modelled with `Except`.
Python float division of small integers by `4.0` is exact, so SNR values are
modelled as rationals.
-/

/-! ### Python string primitives -/

/-- Python whitespace as recognised by `str.strip()` / `str.split()`
(for the ASCII range relevant here). -/
def pyIsSpace (c : Char) : Bool :=
  c = ' ' || c = '\t' || c = '\n' || c = '\r' || c = '\x0b' || c = '\x0c'

/-- Python `str.strip()` with no arguments. -/
def pyStrip (s : List Char) : List Char :=
  ((s.dropWhile pyIsSpace).reverse.dropWhile pyIsSpace).reverse

/-- Python `str.split(sep)` for a one-character separator: splits at every
occurrence, keeping empty pieces (`"".split(',') == [""]`). -/
def splitOn (sep : Char) : List Char → List (List Char)
  | [] => [[]]
  | c :: cs =>
    let r := splitOn sep cs
    if c = sep then [] :: r
    else
      match r with
      | [] => [[c]]
      | p :: ps => (c :: p) :: ps

/-- Helper for `pySplitWs`: accumulates the current token (reversed). -/
def pySplitWsAux : List Char → List Char → List (List Char)
  | cur, [] => if cur.isEmpty then [] else [cur.reverse]
  | cur, c :: cs =>
    if pyIsSpace c then
      if cur.isEmpty then pySplitWsAux [] cs else cur.reverse :: pySplitWsAux [] cs
    else pySplitWsAux (c :: cur) cs

/-- Python `str.split()` with no arguments: splits on runs of whitespace and
never yields an empty token. -/
def pySplitWs (s : List Char) : List (List Char) :=
  pySplitWsAux [] s

/-- Value of an ASCII decimal digit. -/
def digVal (c : Char) : Option Nat :=
  if '0' ≤ c ∧ c ≤ '9' then some (c.toNat - '0'.toNat) else none

/-- Reads a nonempty all-digit run, most significant first. -/
def digitsToNatAux : Nat → List Char → Option Nat
  | acc, [] => some acc
  | acc, c :: cs =>
    match digVal c with
    | some d => digitsToNatAux (acc * 10 + d) cs
    | none => none

/-- The value `digitsToNat l` is the number denoted by `l` when `l` is a nonempty string
of decimal digits, and `none` otherwise. -/
def digitsToNat (l : List Char) : Option Nat :=
  if l.isEmpty then none else digitsToNatAux 0 l

/-- Python `int(s)`: strips whitespace, accepts an optional sign followed by
digits, raises (here: `none`) on anything else.  (Python additionally accepts
underscores between digits and non-ASCII digits; the log fields in this
repository never contain those.) -/
def pyInt (s : List Char) : Option Int :=
  match pyStrip s with
  | '-' :: ds => (digitsToNat ds).map (fun n => -(n : Int))
  | '+' :: ds => (digitsToNat ds).map (fun n => (n : Int))
  | ds => (digitsToNat ds).map (fun n => (n : Int))

deriving instance DecidableEq for Except

/-! ### Batch parser of `examples/companion_radio/analyze_test_log.py` -/

/-- One parsed data line of `parse_log_file`
(`<device_id>,<seq>,<timestamp>,<snr>,<rssi>,<path_len>`).  The stored `snr`
is the raw integer field divided by `4.0` (exact for these magnitudes, hence
a rational). -/
structure Entry6 where
  sender_id : List Char
  seq : Int
  timestamp : Int
  snr : ℚ
  rssi : Int
  path_len : Int
deriving DecidableEq, Repr

/-- The state built by `parse_log_file` for one file. -/
structure Log6 where
  device_id : Option (List Char)
  seq_num : Int
  log_count : Int
  entries : List Entry6
deriving DecidableEq, Repr

/-- Initial `parse_log_file` state (`device_id = None, seq_num = 0,
log_count = 0, entries = []`). -/
def initLog6 : Log6 :=
  { device_id := none, seq_num := 0, log_count := 0, entries := [] }

/-- The line loop of `parse_log_file`.  A `TESTLOG ` header with at least four
whitespace tokens overwrites `device_id`, `seq_num` and `log_count`;
`TESTLOG_END` stops the loop; a line containing a comma and longer than 20
characters (after stripping) with at least 6 comma fields becomes an entry,
its SNR field divided by 4.  `int()` failure is a raised `ValueError`,
modelled by `Except.error`. -/
def parseLogLines : Log6 → List (List Char) → Except Unit Log6
  | st, [] => .ok st
  | st, l :: ls =>
    let line := pyStrip l
    if ("TESTLOG ".data).isPrefixOf line then
      let parts := pySplitWs line
      if 4 ≤ parts.length then
        match pyInt (parts.getD 2 []), pyInt (parts.getD 3 []) with
        | some sn, some lc =>
          parseLogLines
            { st with device_id := some (parts.getD 1 []), seq_num := sn, log_count := lc } ls
        | _, _ => .error ()
      else parseLogLines st ls
    else if ("TESTLOG_END".data).isPrefixOf line then .ok st
    else if ',' ∈ line ∧ 20 < line.length then
      let parts := splitOn ',' line
      if 6 ≤ parts.length then
        match pyInt (parts.getD 1 []), pyInt (parts.getD 2 []), pyInt (parts.getD 3 []),
            pyInt (parts.getD 4 []), pyInt (parts.getD 5 []) with
        | some sq, some ts, some sn, some rs, some pl =>
          parseLogLines
            { st with
              entries := st.entries ++
                [{ sender_id := parts.getD 0 [], seq := sq, timestamp := ts,
                   snr := mkRat sn 4, rssi := rs, path_len := pl }] } ls
        | _, _, _, _, _ => .error ()
      else parseLogLines st ls
    else parseLogLines st ls

/-- Python `parse_log_file`, starting from the initial state. -/
def parseLogFile (lines : List (List Char)) : Except Unit Log6 :=
  parseLogLines initLog6 lines

example :
    parseLogFile ["AAAA,3,123456,20,-90,2 ".data] =
      .ok { device_id := none, seq_num := 0, log_count := 0,
            entries := [{ sender_id := "AAAA".data, seq := 3, timestamp := 123456,
                          snr := 5, rssi := -90, path_len := 2 }] } := by
  decide

example :
    parseLogFile ["TESTLOG AAAA 7 3".data] =
      .ok { device_id := some "AAAA".data, seq_num := 7, log_count := 3, entries := [] } := by
  decide

/-! ### Network statistics of `analyze_network` (analyze_test_log.py) -/

/-- Python truthiness of `log['device_id']` (`None` and the empty string are
falsy). -/
def devTruthy : Option (List Char) → Bool
  | none => false
  | some d => !d.isEmpty

/-- The `total_sent` dictionary of `analyze_network`: for every log with a
truthy `device_id`, `total_sent[device_id] = seq_num` (later logs overwrite
earlier ones); lookup is `total_sent.get(sender, 0)`. -/
def totalSent (logs : List Log6) (d : List Char) : Int :=
  logs.foldl (fun acc lg => if lg.device_id = some d ∧ d ≠ [] then lg.seq_num else acc) 0

/-- The `recv_matrix` of `analyze_network`:
`recv_matrix[sender][receiver]` is incremented once per entry of a log whose
truthy `device_id` equals `receiver`; lookup is
`recv_matrix[sender].get(receiver, 0)`. -/
def recvCount (logs : List Log6) (s r : List Char) : Nat :=
  (logs.map (fun lg =>
    if lg.device_id = some r ∧ r ≠ [] then
      (lg.entries.filter (fun e => e.sender_id = s)).length
    else 0)).sum

/-- The ids inserted into the `all_devices` set: every truthy `device_id` and
every entry's `sender_id`. -/
def allDeviceIds (logs : List Log6) : List (List Char) :=
  logs.flatMap (fun lg =>
    (match lg.device_id with
     | some d => if d = [] then [] else [d]
     | none => []) ++ lg.entries.map (fun e => e.sender_id))

/-- Strict lexicographic order on strings by code point, as Python string
`<` used by `sorted`. -/
def lexLt : List Char → List Char → Bool
  | [], [] => false
  | [], _ :: _ => true
  | _ :: _, [] => false
  | a :: as, b :: bs => if a < b then true else if b < a then false else lexLt as bs

/-- Insert into a sorted duplicate-free list, dropping duplicates. -/
def insertSorted (x : List Char) : List (List Char) → List (List Char)
  | [] => [x]
  | y :: ys => if lexLt x y then x :: y :: ys else if x = y then y :: ys else y :: insertSorted x ys

/-- Python `sorted(set(l))`: the sorted duplicate-free list of the members of `l`. -/
def sortedDedup (l : List (List Char)) : List (List Char) :=
  l.foldr insertSorted []

/-- Python `sorted(all_devices)` in `analyze_network`. -/
def sortedDevices (logs : List Log6) : List (List Char) :=
  sortedDedup (allDeviceIds logs)

/-- One (sender, receiver) pair considered by the loss loop of
`analyze_network`, with the values it computes for that pair. -/
structure LossRow where
  sender : List Char
  receiver : List Char
  expected : Int
  received : Nat
  loss : ℚ
deriving DecidableEq, Repr

/-- The inner receiver loop of the loss computation: skips
`receiver == sender`, otherwise adds `expected`/`received` to the running
totals and records the pair with
`loss_rate = (1 - received/expected) * 100 if expected > 0 else 0`. -/
def lossInner (logs : List Log6) (s : List Char) (devs : List (List Char))
    (acc : Int × Nat × List LossRow) : Int × Nat × List LossRow :=
  devs.foldl (fun a r =>
    if s = r then a
    else
      let expected := totalSent logs s
      let received := recvCount logs s r
      let loss : ℚ := if 0 < expected then (1 - (received : ℚ) / (expected : ℚ)) * 100 else 0
      (a.1 + expected, a.2.1 + received,
        a.2.2 ++ [{ sender := s, receiver := r, expected := expected,
                    received := received, loss := loss }])) acc

/-- The loss computation of `analyze_network`: iterates senders over
`sorted(all_devices)`, skips senders with `total_sent.get(sender, 0) == 0`,
and runs the inner receiver loop.  Returns
`(total_expected, total_received, pairs considered)`. -/
def analyzeLoss (logs : List Log6) : Int × Nat × List LossRow :=
  (sortedDevices logs).foldl
    (fun a s => if totalSent logs s = 0 then a else lossInner logs s (sortedDevices logs) a)
    (0, 0, [])

/-- Python `overall_loss = (1 - total_received/total_expected) * 100 if
total_expected > 0 else 0`. -/
def overallLoss (logs : List Log6) : ℚ :=
  let t := analyzeLoss logs
  if 0 < t.1 then (1 - (t.2.1 : ℚ) / (t.1 : ℚ)) * 100 else 0

/-- The rows printed by `analyze_network` (only pairs with positive loss
rate). -/
def printedRows (logs : List Log6) : List LossRow :=
  (analyzeLoss logs).2.2.filter (fun row => 0 < row.loss)

/-- Declarative description of the pair considered for `(s, r)`: written from
the specification's words, to be compared with the loop accumulation. -/
def specRow (logs : List Log6) (s r : List Char) : LossRow :=
  { sender := s, receiver := r, expected := totalSent logs s, received := recvCount logs s r,
    loss := if 0 < totalSent logs s then
        (1 - (recvCount logs s r : ℚ) / (totalSent logs s : ℚ)) * 100
      else 0 }

/-- The pairs considered for the senders of `devs`: every sender with a
nonzero sent count, paired with every other device of the sorted device
list. -/
def lossPairsFrom (logs : List Log6) (devs : List (List Char)) : List LossRow :=
  devs.flatMap (fun s =>
    if totalSent logs s = 0 then []
    else ((sortedDevices logs).filter (fun r => s ≠ r)).map (specRow logs s))

/-- Declarative description of the set of pairs the specification says the
loss computation ranges over: ordered pairs of distinct devices whose sender
has a nonzero sent count, in sender-major sorted order. -/
def lossPairsSpec (logs : List Log6) : List LossRow :=
  lossPairsFrom logs (sortedDevices logs)

/-! ### CSV parser and aggregation of `tools/mesh_test_app/analyze_logs.py` -/

/-- One parsed entry of `analyze_csv`: from a non-comment line with at least
7 comma fields, `sender = parts[0]`, `seq = int(parts[1])`,
`path_len = int(parts[7])` when there are more than 8 fields else `0`,
`snr = int(parts[5])`, `rssi = int(parts[6])`. -/
structure EntryAL where
  sender : List Char
  seq : Int
  path_len : Int
  snr : Int
  rssi : Int
deriving DecidableEq, Repr

/-- The line loop of `analyze_csv`.  A line starting with
`# Receiver Device ID:` overwrites the receiver id with
`line.split(":")[1].strip()`; any other nonblank line not starting with `#`
whose stripped form has at least 7 comma fields and whose first field is not
the literal `sender_id` becomes an entry.  A failing `int()` raises,
modelled by `Except.error`. -/
def analyzeCsvLines :
    Option (List Char) → List EntryAL → List (List Char) → Except Unit (Option (List Char) × List EntryAL)
  | rid, es, [] => .ok (rid, es)
  | rid, es, l :: ls =>
    if ("# Receiver Device ID:".data).isPrefixOf l then
      analyzeCsvLines (some (pyStrip ((splitOn ':' l).getD 1 []))) es ls
    else if ¬(("#".data).isPrefixOf l) ∧ pyStrip l ≠ [] then
      let parts := splitOn ',' (pyStrip l)
      if 7 ≤ parts.length ∧ parts.getD 0 [] ≠ "sender_id".data then
        match pyInt (parts.getD 1 []),
            (if 7 < parts.length then pyInt (parts.getD 7 []) else some 0),
            pyInt (parts.getD 5 []), pyInt (parts.getD 6 []) with
        | some sq, some pl, some sn, some rs =>
          analyzeCsvLines rid
            (es ++ [{ sender := parts.getD 0 [], seq := sq, path_len := pl, snr := sn, rssi := rs }]) ls
        | _, _, _, _ => .error ()
      else analyzeCsvLines rid es ls
    else analyzeCsvLines rid es ls

/-- Python `analyze_csv(file)`, on the file's list of lines. -/
def analyzeCsv (lines : List (List Char)) : Except Unit (Option (List Char) × List EntryAL) :=
  analyzeCsvLines none [] lines

/-- Python dict assignment `m[k] = v`: replaces the binding in place if the
key exists, otherwise appends it (insertion order preserved). -/
def setKey : List (List Char × List EntryAL) → List Char → List EntryAL → List (List Char × List EntryAL)
  | [], k, v => [(k, v)]
  | (k0, v0) :: rest, k, v =>
    if k0 = k then (k0, v) :: rest else (k0, v0) :: setKey rest k v

/-- The file loop of `main` in analyze_logs.py: each readable file is parsed
by `analyze_csv`; a raised exception is caught and the file skipped; when the
returned `receiver_id` is truthy, `all_data[receiver_id] = entries`
(overwriting any earlier file with the same receiver) and every entry's
sender is added to `all_senders`.  Returns `(all_data, all_senders as an
insertion list with duplicates)`. -/
def loadFiles (files : List (List (List Char))) :
    List (List Char × List EntryAL) × List (List Char) :=
  files.foldl (fun acc f =>
    match analyzeCsv f with
    | .error _ => acc
    | .ok (none, _) => acc
    | .ok (some rid, es) =>
      if rid = [] then acc
      else (setKey acc.1 rid es, acc.2 ++ es.map (fun e => e.sender))) ([], [])

/-- The `max_seq` dictionary of analyze_logs.py, computed over a list of
entries: `max_seq[sender] = max(max_seq[sender], seq)` with a `defaultdict`
that starts at `0`; lookup is `max_seq.get(sender, 0)`. -/
def maxSeqAL (es : List EntryAL) (s : List Char) : Int :=
  es.foldl (fun a e => if e.sender = s then max a e.seq else a) 0

/-- The dictionary `all_data` (receiver → entries). -/
def alData (files : List (List (List Char))) : List (List Char × List EntryAL) :=
  (loadFiles files).1

/-- Python `sorted(all_senders)`. -/
def alSenders (files : List (List (List Char))) : List (List Char) :=
  sortedDedup (loadFiles files).2

/-- The concatenation of `all_data.values()`, over which `max_seq` is
computed. -/
def alAllEntries (files : List (List (List Char))) : List EntryAL :=
  ((alData files).map Prod.snd).flatten

/-- Python `expected = max_seq.get(sender, 0) + 1` in the loss loop of
analyze_logs.py. -/
def alExpected (files : List (List (List Char))) (s : List Char) : Int :=
  maxSeqAL (alAllEntries files) s + 1

/-- Python `received`, the length of the `seqs` set of `sender_data`: the
number of distinct sequence numbers received from `sender` in one
receiver's entries. -/
def distinctSeqCount (es : List EntryAL) (s : List Char) : Nat :=
  (((es.filter (fun e => e.sender = s)).map (fun e => e.seq)).dedup).length

/-- Python `snr_sum` for one sender within one receiver's entries. -/
def snrSum (es : List EntryAL) (s : List Char) : Int :=
  ((es.filter (fun e => e.sender = s)).map (fun e => e.snr)).sum

/-- Python `count` for one sender within one receiver's entries. -/
def snrCount (es : List EntryAL) (s : List Char) : Nat :=
  (es.filter (fun e => e.sender = s)).length

/-- Python `avg_snr = snr_sum / count / 4 if count > 0 else 0` in the loss loop of
analyze_logs.py (lines 102–106). -/
def avgSnr (es : List EntryAL) (s : List Char) : ℚ :=
  if 0 < snrCount es s then (snrSum es s : ℚ) / (snrCount es s : ℚ) / 4 else 0

/-- Sorted-insert for `sorted(all_data.items())` (keys are distinct). -/
def insertAssoc (p : List Char × List EntryAL) :
    List (List Char × List EntryAL) → List (List Char × List EntryAL)
  | [] => [p]
  | q :: qs => if lexLt p.1 q.1 then p :: q :: qs else q :: insertAssoc p qs

/-- Python `sorted(all_data.items())`. -/
def sortAssoc (l : List (List Char × List EntryAL)) : List (List Char × List EntryAL) :=
  l.foldr insertAssoc []

/-- One row printed by the loss loop of analyze_logs.py. -/
structure ALRow where
  sender : List Char
  receiver : List Char
  expected : Int
  received : Nat
  avg_snr : ℚ
deriving DecidableEq, Repr

/-- The rows produced by the nested loss loop of analyze_logs.py: for every
receiver in `sorted(all_data.items())` and every sender in
`sorted(all_senders)` other than the receiver, one row with
`expected = max_seq.get(sender, 0) + 1`, `received` = distinct sequence
count, and the average SNR. -/
def alRows (files : List (List (List Char))) : List ALRow :=
  (sortAssoc (alData files)).flatMap (fun p =>
    ((alSenders files).filter (fun s => s ≠ p.1)).map (fun s =>
      { sender := s, receiver := p.1, expected := alExpected files s,
        received := distinctSeqCount p.2 s, avg_snr := avgSnr p.2 s }))

example :
    analyzeCsv ["# Receiver Device ID: 5061".data, "AAAA,2,0,0,0,8,-90,1".data] =
      .ok (some "5061".data,
        [{ sender := "AAAA".data, seq := 2, path_len := 1, snr := 8, rssi := -90 }]) := by
  decide

/-! ### Streaming parser of `tools/mesh_test_app/main.py`

The four UI regexes of `_parse_line` that return early
(`TESTSTATUS …`, `Entries: …`, `Remaining: …`, `Circular Mode: …`) are
translated as deterministic left-to-right matchers; this is equivalent to
`re.match` for these patterns because every repeated character class is
disjoint from the following literal.  The `Radio Config` branch
(`freq:` … `fwd:`) only updates display labels and does not return early,
so it has no effect on the modelled state. -/

/-- Consume an exact literal, returning the rest. -/
def dropLit : List Char → List Char → Option (List Char)
  | [], s => some s
  | _ :: _, [] => none
  | c :: cs, x :: xs => if x = c then dropLit cs xs else none

/-- Regex `\s+` (greedy). -/
def ws1 : List Char → Option (List Char)
  | c :: cs => if pyIsSpace c then some (cs.dropWhile pyIsSpace) else none
  | [] => none

/-- Regex `\s*` (greedy). -/
def ws0 (s : List Char) : List Char :=
  s.dropWhile pyIsSpace

/-- Is `c` an ASCII decimal digit (`\d` for these log lines)? -/
def isDigitCh (c : Char) : Bool :=
  decide ('0' ≤ c ∧ c ≤ '9')

/-- Regex `\d+` (greedy). -/
def digits1 : List Char → Option (List Char)
  | c :: cs => if isDigitCh c then some (cs.dropWhile isDigitCh) else none
  | [] => none

/-- The character class `[A-F0-9]`. -/
def hexUp (c : Char) : Bool :=
  decide (('A' ≤ c ∧ c ≤ 'F') ∨ ('0' ≤ c ∧ c ≤ '9'))

/-- Regex `[A-F0-9]+` (greedy). -/
def hex1 : List Char → Option (List Char)
  | c :: cs => if hexUp c then some (cs.dropWhile hexUp) else none
  | [] => none

/-- The character class `\w` (ASCII range). -/
def wordCh (c : Char) : Bool :=
  decide (('a' ≤ c ∧ c ≤ 'z') ∨ ('A' ≤ c ∧ c ≤ 'Z') ∨ ('0' ≤ c ∧ c ≤ '9') ∨ c = '_')

/-- Regex `\w+` (greedy). -/
def word1 : List Char → Option (List Char)
  | c :: cs => if wordCh c then some (cs.dropWhile wordCh) else none
  | [] => none

/-- The character class `[\d.]`. -/
def digDotCh (c : Char) : Bool :=
  isDigitCh c || c = '.'

/-- Regex `[\d.]+` (greedy). -/
def digDot1 : List Char → Option (List Char)
  | c :: cs => if digDotCh c then some (cs.dropWhile digDotCh) else none
  | [] => none

/-- Success of `re.match(r"TESTSTATUS\s+([A-F0-9]+)\s+seq=(\d+)\s+log=(\d+)", line)`
succeeds. -/
def matchTESTSTATUS (l : List Char) : Bool :=
  (do
    let r ← dropLit "TESTSTATUS".data l
    let r ← ws1 r
    let r ← hex1 r
    let r ← ws1 r
    let r ← dropLit "seq=".data r
    let r ← digits1 r
    let r ← ws1 r
    let r ← dropLit "log=".data r
    let r ← digits1 r
    pure r).isSome

/-- Success of `re.match(r"Entries:\s*(\d+)\s*/\s*(\d+)\s*\(([\d.]+)%", line)`
succeeds. -/
def matchEntries (l : List Char) : Bool :=
  (do
    let r ← dropLit "Entries:".data l
    let r ← digits1 (ws0 r)
    let r ← dropLit "/".data (ws0 r)
    let r ← digits1 (ws0 r)
    let r ← dropLit "(".data (ws0 r)
    let r ← digDot1 r
    let r ← dropLit "%".data r
    pure r).isSome

/-- Success of `re.match(r"Remaining:\s*(\d+)\s*entries", line)`. -/
def matchRemaining (l : List Char) : Bool :=
  (do
    let r ← dropLit "Remaining:".data l
    let r ← digits1 (ws0 r)
    let r ← dropLit "entries".data (ws0 r)
    pure r).isSome

/-- Success of `re.match(r"Circular Mode:\s*(\w+)", line)`. -/
def matchCircular (l : List Char) : Bool :=
  (do
    let r ← dropLit "Circular Mode:".data l
    let r ← word1 (ws0 r)
    pure r).isSome

/-- One test-log entry appended by `_parse_line`.  The code stores the
matched substrings unconverted, so every field is a string. -/
structure Entry7 where
  device_id : List Char
  seq : List Char
  tx_time : List Char
  rx_time : List Char
  snr : List Char
  rssi : List Char
  path_len : List Char
deriving DecidableEq, Repr

/-- A nonempty all-digit string (`\d+` matching the whole field). -/
def allDigits (l : List Char) : Bool :=
  decide (l ≠ []) && l.all isDigitCh

/-- Regex `-?\d+` matching the whole field. -/
def signedDigits : List Char → Bool
  | '-' :: r => allDigits r
  | l => allDigits l

/-- The entry regex `re.match(r"^([A-F0-9]{4}),(\d+),(\d+),(\d+),(-?\d+),(-?\d+),(\d+)$",
line)`: since none of the character classes can match a comma, the regex
matches exactly when the line splits into seven comma fields of the listed
shapes. -/
def matchEntry7 (line : List Char) : Option Entry7 :=
  match splitOn ',' line with
  | [f0, f1, f2, f3, f4, f5, f6] =>
    if (decide (f0.length = 4) && f0.all hexUp) && allDigits f1 && allDigits f2 &&
        allDigits f3 && signedDigits f4 && signedDigits f5 && allDigits f6 then
      some { device_id := f0, seq := f1, tx_time := f2, rx_time := f3,
             snr := f4, rssi := f5, path_len := f6 }
    else none
  | _ => none

/-- The application state touched by `_parse_line` that the claims are
about: the buffered `self.test_logs` list.  (The UI label updates of the
other branches do not feed any aggregate.) -/
structure AppState where
  test_logs : List Entry7
deriving DecidableEq, Repr

/-- Python `_parse_line`: strips the line; empty lines and lines matching one of
the four UI regexes return unchanged; a line starting with `TESTLOG ` that
does not start with `TESTLOG_END` clears `test_logs`; a line matching the
entry regex appends an entry; everything else leaves the state unchanged. -/
def parseLine (st : AppState) (l : List Char) : AppState :=
  let line := pyStrip l
  if line = [] then st
  else if matchTESTSTATUS line then st
  else if matchEntries line then st
  else if matchRemaining line then st
  else if matchCircular line then st
  else if ("TESTLOG ".data).isPrefixOf line ∧ ¬ ("TESTLOG_END".data).isPrefixOf line then
    { test_logs := [] }
  else
    match matchEntry7 line with
    | some e => { test_logs := st.test_logs ++ [e] }
    | none => st

/-- The line splitter of `_update_serial`: repeatedly split the buffer at
the first newline, emitting complete lines; the remainder (after the last
newline) stays buffered. -/
def extractLines : List Char → List (List Char) × List Char
  | [] => ([], [])
  | c :: cs =>
    let r := extractLines cs
    if c = '\n' then ([] :: r.1, r.2)
    else
      match r.1 with
      | [] => ([], c :: r.2)
      | p :: ps => ((c :: p) :: ps, r.2)

/-- The streaming consumer state: the partial-line buffer
(`self.line_buffer`) and the parsed-record state. -/
structure StreamState where
  line_buffer : List Char
  app : AppState
deriving DecidableEq, Repr

/-- Processing one received chunk in `_update_serial`: append it to the
line buffer, split off every complete line and feed each to
`_parse_line`. -/
def feedData (st : StreamState) (data : List Char) : StreamState :=
  let r := extractLines (st.line_buffer ++ data)
  { line_buffer := r.2, app := r.1.foldl parseLine st.app }

/-- Processing a sequence of chunks in arrival order. -/
def feedAll (st : StreamState) (chunks : List (List Char)) : StreamState :=
  chunks.foldl feedData st

example :
    (feedAll { line_buffer := [], app := { test_logs := [] } }
        ["AB12,3,100".data, ",200,5,-90,2\n".data]).app.test_logs =
      [{ device_id := "AB12".data, seq := "3".data, tx_time := "100".data,
         rx_time := "200".data, snr := "5".data, rssi := "-90".data,
         path_len := "2".data }] := by
  decide

example : matchTESTSTATUS "TESTSTATUS 69F5 seq=63 log=63".data = true := by decide

example : matchEntries "Entries: 342 / 1000 (34.2% used)".data = true := by decide

/-! ### Lemmas about the streaming line splitter -/

lemma extractLines_snd_of_fst_nil (x : List Char) (h : (extractLines x).1 = []) :
    (extractLines x).2 = x := by
  induction x with
  | nil => rfl
  | cons c cs ih =>
    by_cases hc : c = '\n'
    · simp [extractLines, hc] at h
    · simp only [extractLines, if_neg hc] at h ⊢
      cases hr : (extractLines cs).1 with
      | nil =>
        simp [hr] at h ⊢
        exact ih hr
      | cons p ps => simp [hr] at h

lemma extractLines_append (x y : List Char) :
    extractLines (x ++ y) =
      ((extractLines x).1 ++ (extractLines ((extractLines x).2 ++ y)).1,
        (extractLines ((extractLines x).2 ++ y)).2) := by
  induction x with
  | nil => simp [extractLines]
  | cons c cs ih =>
    by_cases hc : c = '\n'
    · subst hc
      simp [extractLines, ih]
    · simp only [List.cons_append, extractLines, if_neg hc]
      cases hr : (extractLines cs).1 with
      | nil =>
        have h2 := extractLines_snd_of_fst_nil cs hr
        have h3 : extractLines (cs ++ y) = extractLines ((extractLines cs).2 ++ y) := by
          rw [h2]
        simp only [ih, hr, List.nil_append, h2, h3]
        simp [extractLines, if_neg hc]
      | cons p ps =>
        have h4 : extractLines (cs ++ y) =
            (p :: (ps ++ (extractLines ((extractLines cs).2 ++ y)).1),
              (extractLines ((extractLines cs).2 ++ y)).2) := by
          rw [ih, hr]; rfl
        simp [List.append_eq, h4, hr]

lemma feedData_append (st : StreamState) (a b : List Char) :
    feedData (feedData st a) b = feedData st (a ++ b) := by
  simp only [feedData]
  rw [show st.line_buffer ++ (a ++ b) = (st.line_buffer ++ a) ++ b by simp]
  rw [extractLines_append (st.line_buffer ++ a) b]
  simp [List.foldl_append]

/-- C7: for every split of the byte feed into chunks — including a split in
the middle of a line — the streaming line splitter plus parser reaches
exactly the same state (and in particular the same sequence of buffered
`TestRecord`s) as feeding the whole data at once. -/
theorem c7_chunk_invariance (st : StreamState) (c : List Char) (cs : List (List Char)) :
    feedAll st (c :: cs) = feedData st (c ++ cs.flatten) ∧
      (feedAll st (c :: cs)).app.test_logs = (feedData st (c ++ cs.flatten)).app.test_logs := by
  suffices h : feedAll st (c :: cs) = feedData st (c ++ cs.flatten) by
    exact ⟨h, by rw [h]⟩
  induction cs generalizing st c with
  | nil => simp [feedAll]
  | cons d ds ih =>
    have h1 : feedAll st (c :: d :: ds) = feedAll (feedData st c) (d :: ds) := by
      simp [feedAll]
    rw [h1, ih (feedData st c) d, feedData_append]
    simp [List.flatten]

/-! ### Lemmas about the loss loop of `analyze_network` -/

lemma foldl_sent_nonneg (d : List Char) :
    ∀ (logs : List Log6) (acc : Int), 0 ≤ acc → (∀ lg ∈ logs, 0 ≤ lg.seq_num) →
      0 ≤ logs.foldl (fun a lg => if lg.device_id = some d ∧ d ≠ [] then lg.seq_num else a) acc := by
  intro logs
  induction logs with
  | nil => intro acc hacc _; simpa using hacc
  | cons lg ls ih =>
    intro acc hacc h
    simp only [List.foldl_cons]
    apply ih
    · by_cases hc : lg.device_id = some d ∧ d ≠ []
      · simpa [hc] using h lg (by simp)
      · simpa [hc] using hacc
    · exact fun x hx => h x (by simp [hx])

lemma totalSent_nonneg (logs : List Log6) (d : List Char)
    (h : ∀ lg ∈ logs, 0 ≤ lg.seq_num) : 0 ≤ totalSent logs d :=
  foldl_sent_nonneg d logs 0 le_rfl h

lemma lossInner_spec (logs : List Log6) (s : List Char) (devs : List (List Char))
    (acc : Int × Nat × List LossRow) :
    lossInner logs s devs acc =
      (acc.1 + (((devs.filter (fun r => s ≠ r)).map (specRow logs s)).map LossRow.expected).sum,
        acc.2.1 + (((devs.filter (fun r => s ≠ r)).map (specRow logs s)).map LossRow.received).sum,
        acc.2.2 ++ (devs.filter (fun r => s ≠ r)).map (specRow logs s)) := by
  induction devs generalizing acc with
  | nil => simp [lossInner]
  | cons r devs ih =>
    by_cases hr : s = r
    · have hstep : lossInner logs s (r :: devs) acc = lossInner logs s devs acc := by
        simp [lossInner, if_pos hr]
      rw [hstep, ih]
      simp [List.filter_cons, hr]
    · have hstep : lossInner logs s (r :: devs) acc =
          lossInner logs s devs
            (acc.1 + totalSent logs s, acc.2.1 + recvCount logs s r,
              acc.2.2 ++ [specRow logs s r]) := by
        simp [lossInner, if_neg hr, specRow]
      rw [hstep, ih]
      simp [List.filter_cons, hr, specRow, add_assoc, List.append_assoc]

lemma analyzeLoss_outer (logs : List Log6) :
    ∀ (devs : List (List Char)) (acc : Int × Nat × List LossRow),
      devs.foldl
          (fun a s => if totalSent logs s = 0 then a else lossInner logs s (sortedDevices logs) a)
          acc =
        (acc.1 + ((lossPairsFrom logs devs).map LossRow.expected).sum,
          acc.2.1 + ((lossPairsFrom logs devs).map LossRow.received).sum,
          acc.2.2 ++ lossPairsFrom logs devs) := by
  intro devs
  induction devs with
  | nil => intro acc; simp [lossPairsFrom]
  | cons s devs ih =>
    intro acc
    simp only [List.foldl_cons]
    by_cases hs : totalSent logs s = 0
    · rw [if_pos hs, ih]
      simp [lossPairsFrom, hs]
    · rw [if_neg hs, lossInner_spec, ih]
      simp [lossPairsFrom, hs, add_assoc, List.append_assoc]

lemma analyzeLoss_eq (logs : List Log6) :
    analyzeLoss logs =
      (((lossPairsSpec logs).map LossRow.expected).sum,
        ((lossPairsSpec logs).map LossRow.received).sum,
        lossPairsSpec logs) := by
  have h := analyzeLoss_outer logs (sortedDevices logs) (0, 0, [])
  simpa [analyzeLoss, lossPairsSpec] using h

/-- Properties of the loss computation of `analyze_network`
(analyze_test_log.py): every considered pair has distinct sender and
receiver and positive expected count with
`loss = (1 - received/expected) * 100`; the considered pairs are exactly the
ordered non-self pairs of the device list whose sender has a positive sent
count; the accumulated totals are the sums over exactly those pairs; and the
overall loss rate is `(1 - Σreceived/Σexpected) * 100` when `Σexpected > 0`
and `0` when `Σexpected = 0`.  The hypothesis restricts to the
specification's data model, where declared send counts are non-negative. -/
lemma analyzeNetwork_loss_props (logs : List Log6) (h : ∀ lg ∈ logs, 0 ≤ lg.seq_num) :
    (∀ row ∈ (analyzeLoss logs).2.2,
        row.sender ≠ row.receiver ∧ 0 < row.expected ∧
          row.loss = (1 - (row.received : ℚ) / (row.expected : ℚ)) * 100) ∧
      (analyzeLoss logs).2.2 = lossPairsSpec logs ∧
      (analyzeLoss logs).1 = ((lossPairsSpec logs).map LossRow.expected).sum ∧
      (analyzeLoss logs).2.1 = ((lossPairsSpec logs).map LossRow.received).sum ∧
      (∀ s r, s ∈ sortedDevices logs → r ∈ sortedDevices logs → s ≠ r →
          0 < totalSent logs s → specRow logs s r ∈ (analyzeLoss logs).2.2) ∧
      ((analyzeLoss logs).1 = 0 → overallLoss logs = 0) ∧
      (0 < (analyzeLoss logs).1 →
          overallLoss logs =
            (1 - ((analyzeLoss logs).2.1 : ℚ) / ((analyzeLoss logs).1 : ℚ)) * 100) := by
  have heq := analyzeLoss_eq logs
  have hrowmem : ∀ row ∈ lossPairsSpec logs,
      row.sender ≠ row.receiver ∧ 0 < row.expected ∧
        row.loss = (1 - (row.received : ℚ) / (row.expected : ℚ)) * 100 := by
    intro row hrow
    rw [lossPairsSpec, lossPairsFrom] at hrow
    rcases List.mem_flatMap.1 hrow with ⟨s, _, hin⟩
    by_cases hs : totalSent logs s = 0
    · simp [hs] at hin
    · rw [if_neg hs] at hin
      rcases List.mem_map.1 hin with ⟨r, hrf, hroweq⟩
      have hsr : s ≠ r := by
        have := (List.mem_filter.1 hrf).2
        simpa using this
      have hpos : 0 < totalSent logs s :=
        lt_of_le_of_ne (totalSent_nonneg logs s h) (fun hh => hs hh.symm)
      subst hroweq
      refine ⟨by simpa [specRow] using hsr, by simpa [specRow] using hpos, ?_⟩
      simp [specRow, if_pos hpos]
  refine ⟨?_, ?_, ?_, ?_, ?_, ?_, ?_⟩
  · intro row hrow
    exact hrowmem row (by rw [heq] at hrow; exact hrow)
  · rw [heq]
  · rw [heq]
  · rw [heq]
  · intro s r hs hr hsr hpos
    rw [heq]
    simp only [lossPairsSpec, lossPairsFrom]
    apply List.mem_flatMap.2
    refine ⟨s, hs, ?_⟩
    rw [if_neg (by omega)]
    exact List.mem_map.2 ⟨r, List.mem_filter.2 ⟨hr, by simpa using hsr⟩, rfl⟩
  · intro hz
    simp [overallLoss, hz]
  · intro hpos
    simp [overallLoss, if_pos hpos]

/-- Concrete input for the C3 witness: one log owned by device `BBBB` that
declared two sent packets and recorded one reception from `AAAA`. -/
def c3logs : List Log6 :=
  [{ device_id := some "BBBB".data, seq_num := 2, log_count := 1,
     entries := [{ sender_id := "AAAA".data, seq := 0, timestamp := 100,
                   snr := 5, rssi := -90, path_len := 1 }] }]

/-! ### Lemmas about `max_seq` of analyze_logs.py -/

lemma maxSeq_fold_ge_acc (s : List Char) :
    ∀ (es : List EntryAL) (acc : Int),
      acc ≤ es.foldl (fun a e => if e.sender = s then max a e.seq else a) acc := by
  intro es
  induction es with
  | nil => intro acc; simp
  | cons e es ih =>
    intro acc
    simp only [List.foldl_cons]
    refine le_trans ?_ (ih _)
    by_cases hc : e.sender = s
    · simp [hc, le_max_left]
    · simp [hc]

lemma maxSeq_fold_ge_elem (s : List Char) :
    ∀ (es : List EntryAL) (acc : Int) (e : EntryAL), e ∈ es → e.sender = s →
      e.seq ≤ es.foldl (fun a x => if x.sender = s then max a x.seq else a) acc := by
  intro es
  induction es with
  | nil => intro acc e he; simp at he
  | cons a es ih =>
    intro acc e he hs
    simp only [List.foldl_cons]
    rcases List.mem_cons.1 he with he | he
    · subst he
      refine le_trans ?_ (maxSeq_fold_ge_acc s es _)
      simp [hs, le_max_right]
    · exact ih _ e he hs

lemma maxSeq_fold_cases (s : List Char) :
    ∀ (es : List EntryAL) (acc : Int),
      es.foldl (fun a e => if e.sender = s then max a e.seq else a) acc = acc ∨
        ∃ e ∈ es, e.sender = s ∧
          es.foldl (fun a x => if x.sender = s then max a x.seq else a) acc = e.seq := by
  intro es
  induction es with
  | nil => intro acc; left; rfl
  | cons a es ih =>
    intro acc
    simp only [List.foldl_cons]
    by_cases hc : a.sender = s
    · rw [if_pos hc]
      rcases ih (max acc a.seq) with h | ⟨e, he, hes, heq⟩
      · rcases le_total a.seq acc with hle | hle
        · left; rw [h]; exact max_eq_left hle
        · right
          exact ⟨a, by simp, hc, by rw [h]; exact max_eq_right hle⟩
      · right
        exact ⟨e, by simp [he], hes, heq⟩
    · rw [if_neg hc]
      rcases ih acc with h | ⟨e, he, hes, heq⟩
      · left; exact h
      · right
        exact ⟨e, by simp [he], hes, heq⟩

lemma maxSeqAL_nonneg (es : List EntryAL) (s : List Char) : 0 ≤ maxSeqAL es s :=
  maxSeq_fold_ge_acc s es 0

/-- C4: (a) for every sender with at least one observed record (with the
specification's non-negative sequence numbers), the analyze_logs.py expected
count `max_seq.get(sender, 0) + 1` is at least 1 and equals the maximum
observed sequence number of that sender plus one; (b) in `analyze_network`
every considered pair's expected count is the header-declared sent count of
its sender and is at least 1; (c) a header for device `d` overrides the sent
count used for `d` and leaves every other device's count unchanged. -/
theorem c4_expected_count
    (es : List EntryAL) (s : List Char) (logs : List Log6) (d : List Char) (n lc : Int)
    (hmem : ∃ e ∈ es, e.sender = s) (hnn : ∀ e ∈ es, 0 ≤ e.seq)
    (hd : d ≠ []) (hseq : ∀ lg ∈ logs, 0 ≤ lg.seq_num) :
    (1 ≤ maxSeqAL es s + 1 ∧
      (∃ e ∈ es, e.sender = s ∧ maxSeqAL es s = e.seq) ∧
      (∀ e ∈ es, e.sender = s → e.seq ≤ maxSeqAL es s)) ∧
    (∀ row ∈ (analyzeLoss logs).2.2,
        row.expected = totalSent logs row.sender ∧ 1 ≤ row.expected) ∧
    (totalSent (logs ++ [{ device_id := some d, seq_num := n, log_count := lc, entries := [] }]) d
        = n ∧
      ∀ d2, d2 ≠ d →
        totalSent (logs ++ [{ device_id := some d, seq_num := n, log_count := lc, entries := [] }])
            d2 = totalSent logs d2) := by
  refine ⟨⟨?_, ?_, ?_⟩, ?_, ?_, ?_⟩
  · have := maxSeqAL_nonneg es s
    omega
  · rcases maxSeq_fold_cases s es 0 with h | ⟨e, he, hes, heq⟩
    · rcases hmem with ⟨e0, he0, hs0⟩
      have h1 : e0.seq ≤ maxSeqAL es s := maxSeq_fold_ge_elem s es 0 e0 he0 hs0
      have h2 : 0 ≤ e0.seq := hnn e0 he0
      have h3 : maxSeqAL es s = 0 := h
      exact ⟨e0, he0, hs0, by omega⟩
    · exact ⟨e, he, hes, heq⟩
  · exact fun e he hs => maxSeq_fold_ge_elem s es 0 e he hs
  · intro row hrow
    rw [analyzeLoss_eq logs] at hrow
    simp only [lossPairsSpec, lossPairsFrom] at hrow
    rcases List.mem_flatMap.1 hrow with ⟨s0, _, hin⟩
    by_cases hs0 : totalSent logs s0 = 0
    · simp [hs0] at hin
    · rw [if_neg hs0] at hin
      rcases List.mem_map.1 hin with ⟨r, _, hroweq⟩
      subst hroweq
      have hpos : 0 < totalSent logs s0 :=
        lt_of_le_of_ne (totalSent_nonneg logs s0 hseq) (fun hh => hs0 hh.symm)
      constructor
      · simp [specRow]
      · simpa [specRow] using hpos
  · rw [totalSent, List.foldl_append]
    simp [hd, totalSent]
  · intro d2 hd2
    rw [totalSent, List.foldl_append]
    have hne : ¬ ((some d : Option (List Char)) = some d2 ∧ d2 ≠ []) := by
      rintro ⟨h1, _⟩
      exact hd2 (Option.some_injective _ h1).symm
    simp only [List.foldl_cons, List.foldl_nil]
    rw [if_neg hne]
    rfl

/-- Concrete entries for the C4 witness. -/
def c4entries : List EntryAL :=
  [{ sender := "AAAA".data, seq := 2, path_len := 0, snr := 8, rssi := -90 },
   { sender := "AAAA".data, seq := 5, path_len := 1, snr := 4, rssi := -80 }]

/-- Concrete logs for the C4 witness. -/
def c4logs : List Log6 :=
  [{ device_id := some "CCCC".data, seq_num := 3, log_count := 1,
     entries := [{ sender_id := "DDDD".data, seq := 1, timestamp := 10,
                   snr := 5, rssi := -90, path_len := 0 }] }]

/-- Witness for C4 at a concrete input. -/
theorem c4_witness :
    ((∃ e ∈ c4entries, e.sender = "AAAA".data) ∧ (∀ e ∈ c4entries, 0 ≤ e.seq) ∧
      "EEEE".data ≠ ([] : List Char) ∧ (∀ lg ∈ c4logs, 0 ≤ lg.seq_num)) ∧
    ((1 ≤ maxSeqAL c4entries "AAAA".data + 1 ∧
        (∃ e ∈ c4entries, e.sender = "AAAA".data ∧ maxSeqAL c4entries "AAAA".data = e.seq) ∧
        (∀ e ∈ c4entries, e.sender = "AAAA".data → e.seq ≤ maxSeqAL c4entries "AAAA".data)) ∧
      (∀ row ∈ (analyzeLoss c4logs).2.2,
          row.expected = totalSent c4logs row.sender ∧ 1 ≤ row.expected) ∧
      (totalSent (c4logs ++
            [{ device_id := some "EEEE".data, seq_num := 9, log_count := 2, entries := [] }])
          "EEEE".data = 9 ∧
        ∀ d2, d2 ≠ "EEEE".data →
          totalSent (c4logs ++
              [{ device_id := some "EEEE".data, seq_num := 9, log_count := 2, entries := [] }])
              d2 = totalSent c4logs d2)) :=
  ⟨⟨by decide, by decide, by decide, by decide⟩,
    c4_expected_count c4entries "AAAA".data c4logs "EEEE".data 9 2
      (by decide) (by decide) (by decide) (by decide)⟩

/-! ### Lemmas about `_parse_line` on `TESTLOG` lines -/

lemma matchers_false_on_testlog (t : List Char) :
    matchTESTSTATUS ('T' :: 'E' :: 'S' :: 'T' :: 'L' :: 'O' :: 'G' :: ' ' :: t) = false ∧
      matchEntries ('T' :: 'E' :: 'S' :: 'T' :: 'L' :: 'O' :: 'G' :: ' ' :: t) = false ∧
      matchRemaining ('T' :: 'E' :: 'S' :: 'T' :: 'L' :: 'O' :: 'G' :: ' ' :: t) = false ∧
      matchCircular ('T' :: 'E' :: 'S' :: 'T' :: 'L' :: 'O' :: 'G' :: ' ' :: t) = false := by
  refine ⟨?_, ?_, ?_, ?_⟩ <;>
    simp [matchTESTSTATUS, matchEntries, matchRemaining, matchCircular, dropLit]

/-- C9: in the streaming parser, a line whose stripped form begins with
`TESTLOG ` (and is therefore not the `TESTLOG_END` sentinel) clears the
buffered record list, while a `TESTLOG_END` line leaves the buffered records
unchanged. -/
theorem c9_testlog_boundary (st st2 : AppState) (l l2 : List Char)
    (h : ("TESTLOG ".data).isPrefixOf (pyStrip l) = true)
    (h2 : pyStrip l2 = "TESTLOG_END".data) :
    (parseLine st l).test_logs = [] ∧ (parseLine st2 l2).test_logs = st2.test_logs := by
  constructor
  · rw [List.isPrefixOf_iff_prefix] at h
    obtain ⟨t, ht⟩ := h
    have ht2 : pyStrip l = 'T' :: 'E' :: 'S' :: 'T' :: 'L' :: 'O' :: 'G' :: ' ' :: t := by
      rw [← ht]; rfl
    obtain ⟨m1, m2, m3, m4⟩ := matchers_false_on_testlog t
    have h5 : ("TESTLOG ".data).isPrefixOf
        ('T' :: 'E' :: 'S' :: 'T' :: 'L' :: 'O' :: 'G' :: ' ' :: t) = true := by
      simp [List.isPrefixOf]
    have h6 : ("TESTLOG_END".data).isPrefixOf
        ('T' :: 'E' :: 'S' :: 'T' :: 'L' :: 'O' :: 'G' :: ' ' :: t) = false := by
      simp [List.isPrefixOf]
    simp [parseLine, ht2, m1, m2, m3, m4, h5, h6]
  · have m1 : matchTESTSTATUS "TESTLOG_END".data = false := by decide
    have m2 : matchEntries "TESTLOG_END".data = false := by decide
    have m3 : matchRemaining "TESTLOG_END".data = false := by decide
    have m4 : matchCircular "TESTLOG_END".data = false := by decide
    have m5 : ("TESTLOG ".data).isPrefixOf "TESTLOG_END".data = false := by decide
    have m6 : matchEntry7 "TESTLOG_END".data = none := by decide
    have m7 : "TESTLOG_END".data ≠ ([] : List Char) := by decide
    simp [parseLine, h2, m1, m2, m3, m4, m5, m6, m7]

/-- Witness for C9 at concrete inputs. -/
theorem c9_witness :
    (("TESTLOG ".data).isPrefixOf (pyStrip "TESTLOG 69F5 63 63".data) = true ∧
        pyStrip " TESTLOG_END ".data = "TESTLOG_END".data) ∧
      (parseLine
          { test_logs := [{ device_id := "AB12".data, seq := "3".data, tx_time := "100".data,
                            rx_time := "200".data, snr := "5".data, rssi := "-90".data,
                            path_len := "2".data }] }
          "TESTLOG 69F5 63 63".data).test_logs = [] ∧
      (parseLine
          { test_logs := [{ device_id := "AB12".data, seq := "3".data, tx_time := "100".data,
                            rx_time := "200".data, snr := "5".data, rssi := "-90".data,
                            path_len := "2".data }] }
          " TESTLOG_END ".data).test_logs =
        ({ test_logs := [{ device_id := "AB12".data, seq := "3".data, tx_time := "100".data,
                           rx_time := "200".data, snr := "5".data, rssi := "-90".data,
                           path_len := "2".data }] } : AppState).test_logs :=
  ⟨⟨by decide, by decide⟩,
    c9_testlog_boundary _ _ "TESTLOG 69F5 63 63".data " TESTLOG_END ".data
      (by decide) (by decide)⟩

/-- C10: the batch reader of analyze_test_log.py accepts a comma-separated
data line only when the stripped line contains a comma and is longer than
20 characters: any non-header line failing that gate is skipped with the
parse state unchanged, so it contributes nothing to any aggregate.  In
particular an otherwise-valid 6-field record of at most 20 characters is
silently dropped. -/
theorem c10_length_gate (st : Log6) (l : List Char) (ls : List (List Char))
    (h1 : ("TESTLOG ".data).isPrefixOf (pyStrip l) = false)
    (h2 : ("TESTLOG_END".data).isPrefixOf (pyStrip l) = false)
    (h3 : ¬(',' ∈ pyStrip l ∧ 20 < (pyStrip l).length)) :
    parseLogLines st (l :: ls) = parseLogLines st ls := by
  simp [parseLogLines, h1, h2, h3]

/-- Witness for C10: `AB12,3,100,20,-90,2` is a valid 6-field record of 19
characters; the parser drops it and the file parse ends in the untouched
initial state. -/
theorem c10_witness :
    (("TESTLOG ".data).isPrefixOf (pyStrip "AB12,3,100,20,-90,2".data) = false ∧
        ("TESTLOG_END".data).isPrefixOf (pyStrip "AB12,3,100,20,-90,2".data) = false ∧
        ¬(',' ∈ pyStrip "AB12,3,100,20,-90,2".data ∧
            20 < (pyStrip "AB12,3,100,20,-90,2".data).length) ∧
        (splitOn ',' (pyStrip "AB12,3,100,20,-90,2".data)).length = 6 ∧
        (pyStrip "AB12,3,100,20,-90,2".data).length = 19) ∧
      parseLogLines initLog6 ["AB12,3,100,20,-90,2".data] = parseLogLines initLog6 [] ∧
      parseLogFile ["AB12,3,100,20,-90,2".data] = .ok initLog6 :=
  ⟨⟨by decide, by decide, by decide, by decide, by decide⟩,
    c10_length_gate initLog6 "AB12,3,100,20,-90,2".data [] (by decide) (by decide) (by decide),
    by decide⟩

/-- C1 counterexample: `AAAA,0,0,0,0,8,-90` is a valid 7-field
comma-separated log line; `analyze_csv` parses its SNR field as `8`
unchanged, but the downstream per-pair averaging of analyze_logs.py
(lines 102–106) divides by 4 and consumes the value `2`, not the field
value `8`. -/
theorem c1_counterexample :
    analyzeCsv ["# Receiver Device ID: BBBB".data, "AAAA,0,0,0,0,8,-90".data] =
      .ok (some "BBBB".data,
        [{ sender := "AAAA".data, seq := 0, path_len := 0, snr := 8, rssi := -90 }]) ∧
      avgSnr [{ sender := "AAAA".data, seq := 0, path_len := 0, snr := 8, rssi := -90 }]
          "AAAA".data = 2 ∧
      (2 : ℚ) ≠ 8 := by
  refine ⟨by decide, ?_, by norm_num⟩
  have hc : snrCount
      [({ sender := "AAAA".data, seq := 0, path_len := 0, snr := 8, rssi := -90 } : EntryAL)]
      "AAAA".data = 1 := by decide
  have hs : snrSum
      [({ sender := "AAAA".data, seq := 0, path_len := 0, snr := 8, rssi := -90 } : EntryAL)]
      "AAAA".data = 8 := by decide
  rw [avgSnr, hc, hs]
  norm_num

/-- C1 (amended): (a) every accepted 6-field line of `parse_log_file` stores
the raw SNR field divided by 4; (b) the streaming parser of main.py stores
all seven matched groups — in particular the SNR group — as the unchanged
matched substrings; (c) `analyze_csv` stores the SNR column as the unchanged
parsed integer; (d) but the downstream per-pair averaging of analyze_logs.py
divides the mean SNR by 4, so the 7-field value is not consumed unchanged
there. -/
theorem c1_snr_scaling_amended :
    (∀ (st : Log6) (l : List Char) (ls : List (List Char)) (sq ts sn rs pl : Int),
        ("TESTLOG ".data).isPrefixOf (pyStrip l) = false →
        ("TESTLOG_END".data).isPrefixOf (pyStrip l) = false →
        (',' ∈ pyStrip l ∧ 20 < (pyStrip l).length) →
        6 ≤ (splitOn ',' (pyStrip l)).length →
        pyInt ((splitOn ',' (pyStrip l)).getD 1 []) = some sq →
        pyInt ((splitOn ',' (pyStrip l)).getD 2 []) = some ts →
        pyInt ((splitOn ',' (pyStrip l)).getD 3 []) = some sn →
        pyInt ((splitOn ',' (pyStrip l)).getD 4 []) = some rs →
        pyInt ((splitOn ',' (pyStrip l)).getD 5 []) = some pl →
        parseLogLines st (l :: ls) =
          parseLogLines
            { st with
              entries := st.entries ++
                [{ sender_id := (splitOn ',' (pyStrip l)).getD 0 [], seq := sq,
                   timestamp := ts, snr := (sn : ℚ) / 4, rssi := rs, path_len := pl }] } ls) ∧
      (∀ (l : List Char) (e : Entry7), matchEntry7 l = some e →
          splitOn ',' l = [e.device_id, e.seq, e.tx_time, e.rx_time, e.snr, e.rssi, e.path_len]) ∧
      (∀ (rid : Option (List Char)) (es : List EntryAL) (l : List Char)
          (ls : List (List Char)) (sq pl sn rs : Int),
          ("# Receiver Device ID:".data).isPrefixOf l = false →
          ("#".data).isPrefixOf l = false → pyStrip l ≠ [] →
          7 ≤ (splitOn ',' (pyStrip l)).length →
          (splitOn ',' (pyStrip l)).getD 0 [] ≠ "sender_id".data →
          pyInt ((splitOn ',' (pyStrip l)).getD 1 []) = some sq →
          (if 7 < (splitOn ',' (pyStrip l)).length then
              pyInt ((splitOn ',' (pyStrip l)).getD 7 [])
            else some 0) = some pl →
          pyInt ((splitOn ',' (pyStrip l)).getD 5 []) = some sn →
          pyInt ((splitOn ',' (pyStrip l)).getD 6 []) = some rs →
          analyzeCsvLines rid es (l :: ls) =
            analyzeCsvLines rid
              (es ++ [{ sender := (splitOn ',' (pyStrip l)).getD 0 [], seq := sq,
                        path_len := pl, snr := sn, rssi := rs }]) ls) ∧
      (∀ (es : List EntryAL) (s : List Char), 0 < snrCount es s →
          avgSnr es s = (snrSum es s : ℚ) / (snrCount es s : ℚ) / 4) := by
  refine ⟨?_, ?_, ?_, ?_⟩
  · intro st l ls sq ts sn rs pl h1 h2 h3 h4 e1 e2 e3 e4 e5
    simp only [List.getD_eq_getElem?_getD] at e1 e2 e3 e4 e5
    simp [parseLogLines, h1, h2, h3, h4, e1, e2, e3, e4, e5, Rat.mkRat_eq_div]
  · intro l e he
    unfold matchEntry7 at he
    split at he
    · rename_i f0 f1 f2 f3 f4 f5 f6 heq
      split at he
      · injection he with he2
        rw [← he2, heq]
      · cases he
    · cases he
  · intro rid es l ls sq pl sn rs h1 h2 h3 h4 h5 e1 e2 e3 e4
    simp only [List.getD_eq_getElem?_getD] at e1 e2 e3 e4 h5
    simp [analyzeCsvLines, h1, h2, h3, h4, h5, e1, e2, e3, e4]
  · intro es s h
    rw [avgSnr, if_pos h]

/-- Witness for the amended C1 at concrete inputs. -/
theorem c1_witness :
    (("TESTLOG ".data).isPrefixOf (pyStrip "AB12,3,100000,20,-90,2".data) = false ∧
        pyInt ((splitOn ',' (pyStrip "AB12,3,100000,20,-90,2".data)).getD 3 []) = some 20 ∧
        parseLogLines initLog6 ["AB12,3,100000,20,-90,2".data] =
          parseLogLines
            { initLog6 with
              entries := initLog6.entries ++
                [{ sender_id := (splitOn ',' (pyStrip "AB12,3,100000,20,-90,2".data)).getD 0 [],
                   seq := 3, timestamp := 100000, snr := ((20 : Int) : ℚ) / 4, rssi := -90,
                   path_len := 2 }] } []) ∧
      (matchEntry7 "AB12,3,100,200,5,-90,2".data =
          some { device_id := "AB12".data, seq := "3".data, tx_time := "100".data,
                 rx_time := "200".data, snr := "5".data, rssi := "-90".data,
                 path_len := "2".data } ∧
        splitOn ',' "AB12,3,100,200,5,-90,2".data =
          ["AB12".data, "3".data, "100".data, "200".data, "5".data, "-90".data, "2".data]) ∧
      (pyInt ((splitOn ',' (pyStrip "AAAA,0,0,0,0,8,-90,1".data)).getD 5 []) = some 8 ∧
        analyzeCsvLines none [] ["AAAA,0,0,0,0,8,-90,1".data] =
          analyzeCsvLines none
            ([] ++ [{ sender := (splitOn ',' (pyStrip "AAAA,0,0,0,0,8,-90,1".data)).getD 0 [],
                      seq := 0, path_len := 1, snr := 8, rssi := -90 }]) []) ∧
      (0 < snrCount
          [{ sender := "AAAA".data, seq := 0, path_len := 0, snr := 8, rssi := -90 }]
          "AAAA".data ∧
        avgSnr [{ sender := "AAAA".data, seq := 0, path_len := 0, snr := 8, rssi := -90 }]
            "AAAA".data =
          ((snrSum [{ sender := "AAAA".data, seq := 0, path_len := 0, snr := 8, rssi := -90 }]

                "AAAA".data : Int) : ℚ) /
            ((snrCount [{ sender := "AAAA".data, seq := 0, path_len := 0, snr := 8, rssi := -90 }]
                "AAAA".data : Nat) : ℚ) / 4) :=
  ⟨⟨by decide, by decide,
      c1_snr_scaling_amended.1 initLog6 "AB12,3,100000,20,-90,2".data [] 3 100000 20 (-90) 2
        (by decide) (by decide) (by decide) (by decide) (by decide) (by decide) (by decide)
        (by decide) (by decide)⟩,
    ⟨by decide,
      c1_snr_scaling_amended.2.1 "AB12,3,100,200,5,-90,2".data
        { device_id := "AB12".data, seq := "3".data, tx_time := "100".data,
          rx_time := "200".data, snr := "5".data, rssi := "-90".data, path_len := "2".data }
        (by decide)⟩,
    ⟨by decide,
      c1_snr_scaling_amended.2.2.1 none [] "AAAA,0,0,0,0,8,-90,1".data [] 0 1 8 (-90)
        (by decide) (by decide) (by decide) (by decide) (by decide) (by decide) (by decide)
        (by decide) (by decide)⟩,
    ⟨by decide,
      c1_snr_scaling_amended.2.2.2
        [{ sender := "AAAA".data, seq := 0, path_len := 0, snr := 8, rssi := -90 }]
        "AAAA".data (by decide)⟩⟩

/-- C6 counterexample: with two conflicting headers in one file, both
parsers keep the id of the *last* header, not the first: the claimed
first-id-wins behaviour is false. -/
theorem c6_counterexample :
    parseLogLines initLog6 ["TESTLOG AAAA 1 1".data, "TESTLOG BBBB 2 2".data] =
      .ok { device_id := some "BBBB".data, seq_num := 2, log_count := 2, entries := [] } ∧
      analyzeCsvLines none []
          ["# Receiver Device ID: AAAA".data, "# Receiver Device ID: BBBB".data] =
        .ok (some "BBBB".data, []) ∧
      "BBBB".data ≠ "AAAA".data := by
  refine ⟨by decide, by decide, by decide⟩

/-- C6 (amended): conflicting header/receiver ids within one file are
resolved last-wins, with no interruption of parsing: every well-formed
`TESTLOG` header line overwrites the previously held device id, sent count
and log count in `parse_log_file`, and every `# Receiver Device ID:` line
overwrites the previously held receiver id in `analyze_csv`; parsing
continues with the remaining lines in both cases. -/
theorem c6_header_conflict_amended :
    (∀ (st : Log6) (l : List Char) (ls : List (List Char)) (sn lc : Int),
        ("TESTLOG ".data).isPrefixOf (pyStrip l) = true →
        4 ≤ (pySplitWs (pyStrip l)).length →
        pyInt ((pySplitWs (pyStrip l)).getD 2 []) = some sn →
        pyInt ((pySplitWs (pyStrip l)).getD 3 []) = some lc →
        parseLogLines st (l :: ls) =
          parseLogLines
            { st with
              device_id := some ((pySplitWs (pyStrip l)).getD 1 []),
              seq_num := sn, log_count := lc } ls) ∧
      (∀ (rid : Option (List Char)) (es : List EntryAL) (l : List Char)
          (ls : List (List Char)),
          ("# Receiver Device ID:".data).isPrefixOf l = true →
          analyzeCsvLines rid es (l :: ls) =
            analyzeCsvLines (some (pyStrip ((splitOn ':' l).getD 1 []))) es ls) := by
  constructor
  · intro st l ls sn lc h1 h2 e1 e2
    simp only [List.getD_eq_getElem?_getD] at e1 e2
    simp [parseLogLines, h1, h2, e1, e2]
  · intro rid es l ls h1
    simp [analyzeCsvLines, h1]

/-- Witness for the amended C6 at concrete inputs: a second conflicting
header overwrites the id held from the first one. -/
theorem c6_witness :
    ((("TESTLOG ".data).isPrefixOf (pyStrip "TESTLOG BBBB 2 2".data) = true ∧
        4 ≤ (pySplitWs (pyStrip "TESTLOG BBBB 2 2".data)).length ∧
        pyInt ((pySplitWs (pyStrip "TESTLOG BBBB 2 2".data)).getD 2 []) = some 2 ∧
        pyInt ((pySplitWs (pyStrip "TESTLOG BBBB 2 2".data)).getD 3 []) = some 2) ∧
      parseLogLines
          { device_id := some "AAAA".data, seq_num := 1, log_count := 1, entries := [] }
          ["TESTLOG BBBB 2 2".data] =
        parseLogLines
          { device_id := some ((pySplitWs (pyStrip "TESTLOG BBBB 2 2".data)).getD 1 []),
            seq_num := 2, log_count := 2, entries := [] } []) ∧
      (("# Receiver Device ID:".data).isPrefixOf "# Receiver Device ID: BBBB".data = true ∧
        analyzeCsvLines (some "AAAA".data) [] ["# Receiver Device ID: BBBB".data] =
          analyzeCsvLines
            (some (pyStrip ((splitOn ':' "# Receiver Device ID: BBBB".data).getD 1 []))) [] []) :=
  ⟨⟨⟨by decide, by decide, by decide, by decide⟩,
      c6_header_conflict_amended.1
        { device_id := some "AAAA".data, seq_num := 1, log_count := 1, entries := [] }
        "TESTLOG BBBB 2 2".data [] 2 2 (by decide) (by decide) (by decide) (by decide)⟩,
    ⟨by decide,
      c6_header_conflict_amended.2 (some "AAAA".data) [] "# Receiver Device ID: BBBB".data []
        (by decide)⟩⟩

/-! ### Membership lemmas for the sorted device set -/

lemma mem_insertSorted_self (x : List Char) (l : List (List Char)) :
    x ∈ insertSorted x l := by
  induction l with
  | nil => simp [insertSorted]
  | cons y ys ih =>
    rw [insertSorted]
    by_cases h1 : lexLt x y = true
    · simp [h1]
    · by_cases h2 : x = y
      · subst h2
        simp only [if_neg h1]
        split
        · exact List.mem_cons_self x _
        · exact List.mem_cons_self x _
      · simp only [h1, h2, if_neg, if_false, Bool.false_eq_true]
        exact List.mem_cons_of_mem y ih

lemma mem_insertSorted_of_mem (x z : List Char) (l : List (List Char)) (h : z ∈ l) :
    z ∈ insertSorted x l := by
  induction l with
  | nil => simp at h
  | cons y ys ih =>
    rw [insertSorted]
    by_cases h1 : lexLt x y = true
    · simp [h1, h]
    · by_cases h2 : x = y
      · subst h2
        simp only [if_neg h1]
        simpa using h
      · simp only [h1, h2, if_neg, if_false, Bool.false_eq_true]
        rcases List.mem_cons.1 h with h3 | h3
        · exact h3 ▸ List.mem_cons_self y _
        · exact List.mem_cons_of_mem y (ih h3)

lemma mem_sortedDedup (x : List Char) (l : List (List Char)) (h : x ∈ l) :
    x ∈ sortedDedup l := by
  induction l with
  | nil => simp at h
  | cons a l ih =>
    rw [sortedDedup, List.foldr_cons]
    rcases List.mem_cons.1 h with h1 | h1
    · exact h1 ▸ mem_insertSorted_self a _
    · exact mem_insertSorted_of_mem a x _ (ih h1)

/-- Concrete logs for the C5 counterexample: device `AAAA` appears as a
sender in `BBBB`'s log but owns no log of its own. -/
def c5logs : List Log6 :=
  [{ device_id := some "BBBB".data, seq_num := 5, log_count := 1,
     entries := [{ sender_id := "AAAA".data, seq := 3, timestamp := 100,
                   snr := 5, rssi := -90, path_len := 1 }] }]

/-- C5 counterexample: sender `AAAA` has an observed record and no header,
is included in the device set, yet no pair of the loss computation has it as
a sender — `analyze_network` silently skips it (its sent count defaults to
0) instead of using the derived `max_seq + 1 = 4`. -/
theorem c5_counterexample :
    "AAAA".data ∈ sortedDevices c5logs ∧
      (∃ lg ∈ c5logs, ∃ e ∈ lg.entries, e.sender_id = "AAAA".data) ∧
      (∀ lg ∈ c5logs, lg.device_id ≠ some "AAAA".data) ∧
      (analyzeLoss c5logs).2.2.map LossRow.sender = ["BBBB".data] := by
  refine ⟨by decide, by decide, by decide, by decide⟩

/-- C5 (amended): in analyze_logs.py a header-less sender is indeed included
with the derived `max_seq + 1` expected count — every sender of
`all_senders` receives a loss row against every other receiver; but in
analyze_test_log.py a sender whose sent count is absent (`total_sent`
defaults to 0) contributes no loss pair at all, even though it still enters
the device set whenever it appears in a record. -/
theorem c5_headerless_sender_amended :
    (∀ (files : List (List (List Char))) (s : List Char) (rid : List Char)
        (es2 : List EntryAL),
        s ∈ alSenders files → (rid, es2) ∈ sortAssoc (alData files) → s ≠ rid →
        ({ sender := s, receiver := rid, expected := alExpected files s,
           received := distinctSeqCount es2 s, avg_snr := avgSnr es2 s } : ALRow) ∈
          alRows files) ∧
      (∀ (logs : List Log6) (s : List Char), totalSent logs s = 0 →
          ∀ row ∈ (analyzeLoss logs).2.2, row.sender ≠ s) ∧
      (∀ (logs : List Log6) (s : List Char) (lg : Log6) (e : Entry6),
          lg ∈ logs → e ∈ lg.entries → e.sender_id = s → s ∈ sortedDevices logs) := by
  refine ⟨?_, ?_, ?_⟩
  · intro files s rid es2 hs hp hne
    rw [alRows]
    apply List.mem_flatMap.2
    refine ⟨(rid, es2), hp, ?_⟩
    apply List.mem_map.2
    exact ⟨s, List.mem_filter.2 ⟨hs, by simpa using hne⟩, rfl⟩
  · intro logs s hzero row hrow
    rw [analyzeLoss_eq logs] at hrow
    simp only [lossPairsSpec, lossPairsFrom] at hrow
    rcases List.mem_flatMap.1 hrow with ⟨s0, _, hin⟩
    by_cases hs0 : totalSent logs s0 = 0
    · simp [hs0] at hin
    · rw [if_neg hs0] at hin
      rcases List.mem_map.1 hin with ⟨r, _, hroweq⟩
      subst hroweq
      intro hcontra
      simp only [specRow] at hcontra
      exact hs0 (hcontra ▸ hzero)
  · intro logs s lg e hlg he hs
    apply mem_sortedDedup
    rw [allDeviceIds]
    apply List.mem_flatMap.2
    refine ⟨lg, hlg, ?_⟩
    apply List.mem_append.2
    right
    exact List.mem_map.2 ⟨e, he, hs⟩

/-- Concrete analyze_logs.py input files for the C5 witness. -/
def c5files : List (List (List Char)) :=
  [["# Receiver Device ID: BBBB".data, "AAAA,0,0,0,0,8,-90,1".data]]

/-- Witness for the amended C5 at concrete inputs. -/
theorem c5_witness :
    ("AAAA".data ∈ alSenders c5files ∧
        ("BBBB".data,
            [({ sender := "AAAA".data, seq := 0, path_len := 1, snr := 8, rssi := -90 } :
              EntryAL)]) ∈ sortAssoc (alData c5files) ∧
        "AAAA".data ≠ "BBBB".data ∧ totalSent c5logs "AAAA".data = 0) ∧
      ({ sender := "AAAA".data, receiver := "BBBB".data,
         expected := alExpected c5files "AAAA".data,
         received := distinctSeqCount
           [({ sender := "AAAA".data, seq := 0, path_len := 1, snr := 8, rssi := -90 } :
             EntryAL)] "AAAA".data,
         avg_snr := avgSnr
           [({ sender := "AAAA".data, seq := 0, path_len := 1, snr := 8, rssi := -90 } :
             EntryAL)] "AAAA".data } : ALRow) ∈ alRows c5files ∧
      (∀ row ∈ (analyzeLoss c5logs).2.2, row.sender ≠ "AAAA".data) ∧
      "AAAA".data ∈ sortedDevices c5logs :=
  ⟨⟨by decide, by decide, by decide, by decide⟩,
    c5_headerless_sender_amended.1 c5files "AAAA".data "BBBB".data
      [({ sender := "AAAA".data, seq := 0, path_len := 1, snr := 8, rssi := -90 } : EntryAL)]
      (by decide) (by decide) (by decide),
    c5_headerless_sender_amended.2.1 c5logs "AAAA".data (by decide),
    c5_headerless_sender_amended.2.2 c5logs "AAAA".data
      { device_id := some "BBBB".data, seq_num := 5, log_count := 1,
        entries := [{ sender_id := "AAAA".data, seq := 3, timestamp := 100,
                      snr := 5, rssi := -90, path_len := 1 }] }
      { sender_id := "AAAA".data, seq := 3, timestamp := 100,
        snr := 5, rssi := -90, path_len := 1 }
      (by decide) (by decide) (by decide)⟩

/-- C8 counterexample: `analyze_csv` accepts two identical records (same
sender, same sequence number), but the received count used by the loss loop
of analyze_logs.py is the number of *distinct* sequence numbers, `1`, not
the number of accepted records, `2`. -/
theorem c8_counterexample :
    analyzeCsv ["# Receiver Device ID: BBBB".data, "AAAA,1,0,0,0,8,-90,1".data,
        "AAAA,1,0,0,0,8,-90,1".data] =
      .ok (some "BBBB".data,
        [{ sender := "AAAA".data, seq := 1, path_len := 1, snr := 8, rssi := -90 },
         { sender := "AAAA".data, seq := 1, path_len := 1, snr := 8, rssi := -90 }]) ∧
      distinctSeqCount
          [{ sender := "AAAA".data, seq := 1, path_len := 1, snr := 8, rssi := -90 },
           { sender := "AAAA".data, seq := 1, path_len := 1, snr := 8, rssi := -90 }]
          "AAAA".data = 1 ∧
      snrCount
          [{ sender := "AAAA".data, seq := 1, path_len := 1, snr := 8, rssi := -90 },
           { sender := "AAAA".data, seq := 1, path_len := 1, snr := 8, rssi := -90 }]
          "AAAA".data = 2 ∧
      (1 : Nat) ≠ 2 := by
  refine ⟨by decide, by decide, by decide, by decide⟩

/-- C8 (amended): in analyze_test_log.py the receive matrix is incremented
once per accepted record — appending a log adds exactly its per-sender entry
count, duplicates included, and every loss pair consumes exactly that matrix
count; in analyze_logs.py the received count is instead the number of
distinct sequence numbers: it never exceeds the accepted record count and
equals it exactly when no duplicate sequence numbers were received. -/
theorem c8_receive_count_amended :
    (∀ (logs : List Log6) (lg : Log6) (s r : List Char),
        recvCount (logs ++ [lg]) s r =
          recvCount logs s r +
            (if lg.device_id = some r ∧ r ≠ [] then
              (lg.entries.filter (fun e => e.sender_id = s)).length
            else 0)) ∧
      (∀ (logs : List Log6), ∀ row ∈ (analyzeLoss logs).2.2,
          row.received = recvCount logs row.sender row.receiver) ∧
      (∀ (es : List EntryAL) (s : List Char),
          distinctSeqCount es s ≤ snrCount es s ∧
            (((es.filter (fun e => e.sender = s)).map (fun e => e.seq)).Nodup →
              distinctSeqCount es s = snrCount es s)) := by
  refine ⟨?_, ?_, ?_⟩
  · intro logs lg s r
    simp [recvCount, List.map_append, List.sum_append]
  · intro logs row hrow
    rw [analyzeLoss_eq logs] at hrow
    simp only [lossPairsSpec, lossPairsFrom] at hrow
    rcases List.mem_flatMap.1 hrow with ⟨s0, _, hin⟩
    by_cases hs0 : totalSent logs s0 = 0
    · simp [hs0] at hin
    · rw [if_neg hs0] at hin
      rcases List.mem_map.1 hin with ⟨r, _, hroweq⟩
      subst hroweq
      simp [specRow]
  · intro es s
    constructor
    · calc distinctSeqCount es s
          ≤ ((es.filter (fun e => e.sender = s)).map (fun e => e.seq)).length :=
            List.Sublist.length_le (List.dedup_sublist _)
        _ = snrCount es s := by simp [snrCount]
    · intro hnd
      rw [distinctSeqCount, List.dedup_eq_self.2 hnd]
      simp [snrCount]

/-- Concrete logs for the C8 witness: one log owned by `BBBB` holding two
records from `AAAA`, one of them a duplicate sequence. -/
def c8logs : List Log6 :=
  [{ device_id := some "BBBB".data, seq_num := 2, log_count := 2,
     entries := [{ sender_id := "AAAA".data, seq := 0, timestamp := 1,
                   snr := 5, rssi := -90, path_len := 1 },
                 { sender_id := "AAAA".data, seq := 0, timestamp := 2,
                   snr := 5, rssi := -90, path_len := 1 }] }]

/-- An extra log appended in the C8 witness: `CCCC`'s log with one record
from `AAAA`. -/
def c8newlog : Log6 :=
  { device_id := some "CCCC".data, seq_num := 0, log_count := 0,
    entries := [{ sender_id := "AAAA".data, seq := 0, timestamp := 3,
                  snr := 5, rssi := -90, path_len := 1 }] }

/-- Duplicate-free entry list for the C8 witness. -/
def c8entries : List EntryAL :=
  [{ sender := "AAAA".data, seq := 1, path_len := 1, snr := 8, rssi := -90 },
   { sender := "AAAA".data, seq := 2, path_len := 1, snr := 8, rssi := -90 }]

/-- Witness for the amended C8 at concrete inputs. -/
theorem c8_witness :
    ((c8entries.filter (fun e => e.sender = "AAAA".data)).map (fun e => e.seq)).Nodup ∧
      recvCount (c8logs ++ [c8newlog]) "AAAA".data "CCCC".data =
        recvCount c8logs "AAAA".data "CCCC".data +
          (if c8newlog.device_id = some "CCCC".data ∧ "CCCC".data ≠ ([] : List Char) then
            (c8newlog.entries.filter (fun e => e.sender_id = "AAAA".data)).length
          else 0) ∧
      (∀ row ∈ (analyzeLoss c8logs).2.2,
          row.received = recvCount c8logs row.sender row.receiver) ∧
      distinctSeqCount c8entries "AAAA".data = snrCount c8entries "AAAA".data :=
  ⟨by decide,
    c8_receive_count_amended.1 c8logs c8newlog "AAAA".data "CCCC".data,
    c8_receive_count_amended.2.1 c8logs,
    (c8_receive_count_amended.2.2 c8entries "AAAA".data).2 (by decide)⟩

/-! ### The loss loop of analyze_logs.py `main` (lines 85–121) -/

/-- One pair considered by the nested loss loop of analyze_logs.py `main`,
with every value the loop computes for it. -/
structure ALLossRow where
  sender : List Char
  receiver : List Char
  expected : Int
  received : Nat
  loss : ℚ
  avg_snr : ℚ
deriving DecidableEq, Repr

/-- The inner sender loop of analyze_logs.py: skips
`sender == receiver_id`, otherwise computes
`expected = max_seq.get(sender, 0) + 1`, `received` as the
distinct-sequence count, `loss_rate = (1 - received/expected) * 100 if
expected > 0 else 0` and the average SNR, and adds `expected`/`received`
to the running totals. -/
def alLossInner (files : List (List (List Char))) (rid : List Char) (es2 : List EntryAL)
    (senders : List (List Char)) (acc : Int × Nat × List ALLossRow) :
    Int × Nat × List ALLossRow :=
  senders.foldl (fun a s =>
    if s = rid then a
    else
      let expected := alExpected files s
      let received := distinctSeqCount es2 s
      let loss : ℚ := if 0 < expected then (1 - (received : ℚ) / (expected : ℚ)) * 100 else 0
      (a.1 + expected, a.2.1 + received,
        a.2.2 ++ [{ sender := s, receiver := rid, expected := expected,
                    received := received, loss := loss, avg_snr := avgSnr es2 s }])) acc

/-- The outer receiver loop of analyze_logs.py: iterates
`sorted(all_data.items())` — the file-owning receivers only — and runs the
inner sender loop over `sorted(all_senders)`.  Returns
`(total_expected, total_received, pairs considered)`. -/
def alLoss (files : List (List (List Char))) : Int × Nat × List ALLossRow :=
  (sortAssoc (alData files)).foldl
    (fun a p => alLossInner files p.1 p.2 (alSenders files) a) (0, 0, [])

/-- Python `overall_loss = (1 - total_received/total_expected) * 100 if
total_expected > 0 else 0` of analyze_logs.py. -/
def alOverallLoss (files : List (List (List Char))) : ℚ :=
  let t := alLoss files
  if 0 < t.1 then (1 - (t.2.1 : ℚ) / (t.1 : ℚ)) * 100 else 0

/-- Declarative description of the pair computed for sender `s` against
file-owning receiver `rid` (written from the specification's words, to be
compared with the loop accumulation). -/
def alSpecRow (files : List (List (List Char))) (s rid : List Char) (es2 : List EntryAL) :
    ALLossRow :=
  { sender := s, receiver := rid, expected := alExpected files s,
    received := distinctSeqCount es2 s,
    loss := if 0 < alExpected files s then
        (1 - (distinctSeqCount es2 s : ℚ) / (alExpected files s : ℚ)) * 100
      else 0,
    avg_snr := avgSnr es2 s }

/-- The pairs produced for the receivers of `ps`: every sender of
`sorted(all_senders)` other than the receiver, for each receiver in
order. -/
def alLossPairsFrom (files : List (List (List Char)))
    (ps : List (List Char × List EntryAL)) : List ALLossRow :=
  ps.flatMap (fun p =>
    ((alSenders files).filter (fun s => s ≠ p.1)).map (fun s => alSpecRow files s p.1 p.2))

/-- Declarative description of the full pair list of the analyze_logs.py
loss loop. -/
def alLossPairsSpec (files : List (List (List Char))) : List ALLossRow :=
  alLossPairsFrom files (sortAssoc (alData files))

/-- Modelled from the spec (§3 `DeviceSet`): all distinct device
identifiers observed either as a declared receiver (log owner) or as any
record's sender. -/
def alDeviceSet (files : List (List (List Char))) : List (List Char) :=
  sortedDedup ((alData files).map Prod.fst ++ (loadFiles files).2)

/-- Written from the claim's words: the ordered pairs of distinct devices
of the observed device set whose sender has a positive expected count —
the pairs the claim says the totals range over. -/
def alClaimedPairs (files : List (List (List Char))) : List (List Char × List Char) :=
  (alDeviceSet files).flatMap (fun s =>
    if 0 < alExpected files s then
      (alDeviceSet files).filterMap (fun r => if s ≠ r then some (s, r) else none)
    else [])

lemma alExpected_pos (files : List (List (List Char))) (s : List Char) :
    0 < alExpected files s := by
  have h := maxSeqAL_nonneg (alAllEntries files) s
  rw [alExpected]
  omega

lemma alLossInner_spec (files : List (List (List Char))) (rid : List Char)
    (es2 : List EntryAL) (senders : List (List Char)) (acc : Int × Nat × List ALLossRow) :
    alLossInner files rid es2 senders acc =
      (acc.1 + (((senders.filter (fun s => s ≠ rid)).map
            (fun s => alSpecRow files s rid es2)).map ALLossRow.expected).sum,
        acc.2.1 + (((senders.filter (fun s => s ≠ rid)).map
            (fun s => alSpecRow files s rid es2)).map ALLossRow.received).sum,
        acc.2.2 ++
          (senders.filter (fun s => s ≠ rid)).map (fun s => alSpecRow files s rid es2)) := by
  induction senders generalizing acc with
  | nil => simp [alLossInner]
  | cons s senders ih =>
    by_cases hs : s = rid
    · have hstep : alLossInner files rid es2 (s :: senders) acc =
          alLossInner files rid es2 senders acc := by
        simp [alLossInner, if_pos hs]
      rw [hstep, ih]
      simp [List.filter_cons, hs]
    · have hstep : alLossInner files rid es2 (s :: senders) acc =
          alLossInner files rid es2 senders
            (acc.1 + alExpected files s, acc.2.1 + distinctSeqCount es2 s,
              acc.2.2 ++ [alSpecRow files s rid es2]) := by
        simp [alLossInner, if_neg hs, alSpecRow]
      rw [hstep, ih]
      simp [List.filter_cons, hs, alSpecRow, add_assoc, List.append_assoc]

lemma alLoss_outer (files : List (List (List Char))) :
    ∀ (ps : List (List Char × List EntryAL)) (acc : Int × Nat × List ALLossRow),
      ps.foldl (fun a p => alLossInner files p.1 p.2 (alSenders files) a) acc =
        (acc.1 + ((alLossPairsFrom files ps).map ALLossRow.expected).sum,
          acc.2.1 + ((alLossPairsFrom files ps).map ALLossRow.received).sum,
          acc.2.2 ++ alLossPairsFrom files ps) := by
  intro ps
  induction ps with
  | nil => intro acc; simp [alLossPairsFrom]
  | cons p ps ih =>
    intro acc
    simp only [List.foldl_cons]
    rw [alLossInner_spec, ih]
    simp [alLossPairsFrom, add_assoc, List.append_assoc]

lemma alLoss_eq (files : List (List (List Char))) :
    alLoss files =
      (((alLossPairsSpec files).map ALLossRow.expected).sum,
        ((alLossPairsSpec files).map ALLossRow.received).sum,
        alLossPairsSpec files) := by
  have h := alLoss_outer files (sortAssoc (alData files)) (0, 0, [])
  simpa [alLoss, alLossPairsSpec] using h

/-- Properties of the analyze_logs.py loss loop: every considered pair has
distinct sender and receiver and positive expected count with the loss
formula; the considered pairs are exactly the non-self
(sender, file-owning receiver) pairs; the totals are the sums over exactly
those pairs; and the overall loss has the guarded formula. -/
lemma alLoss_props (files : List (List (List Char))) :
    (∀ row ∈ (alLoss files).2.2,
        row.sender ≠ row.receiver ∧ 0 < row.expected ∧
          row.loss = (1 - (row.received : ℚ) / (row.expected : ℚ)) * 100) ∧
      (alLoss files).2.2 = alLossPairsSpec files ∧
      (alLoss files).1 = ((alLossPairsSpec files).map ALLossRow.expected).sum ∧
      (alLoss files).2.1 = ((alLossPairsSpec files).map ALLossRow.received).sum ∧
      (∀ s rid es2, s ∈ alSenders files → (rid, es2) ∈ sortAssoc (alData files) → s ≠ rid →
          alSpecRow files s rid es2 ∈ (alLoss files).2.2) ∧
      ((alLoss files).1 = 0 → alOverallLoss files = 0) ∧
      (0 < (alLoss files).1 →
          alOverallLoss files =
            (1 - ((alLoss files).2.1 : ℚ) / ((alLoss files).1 : ℚ)) * 100) := by
  have heq := alLoss_eq files
  have hrowmem : ∀ row ∈ alLossPairsSpec files,
      row.sender ≠ row.receiver ∧ 0 < row.expected ∧
        row.loss = (1 - (row.received : ℚ) / (row.expected : ℚ)) * 100 := by
    intro row hrow
    rw [alLossPairsSpec, alLossPairsFrom] at hrow
    rcases List.mem_flatMap.1 hrow with ⟨p, _, hin⟩
    rcases List.mem_map.1 hin with ⟨s, hsf, hroweq⟩
    have hsr : s ≠ p.1 := by
      have h2 := (List.mem_filter.1 hsf).2
      simpa using h2
    have hpos : 0 < alExpected files s := alExpected_pos files s
    subst hroweq
    refine ⟨by simpa [alSpecRow] using hsr, by simpa [alSpecRow] using hpos, ?_⟩
    simp [alSpecRow, if_pos hpos]
  refine ⟨?_, ?_, ?_, ?_, ?_, ?_, ?_⟩
  · intro row hrow
    exact hrowmem row (by rw [heq] at hrow; exact hrow)
  · rw [heq]
  · rw [heq]
  · rw [heq]
  · intro s rid es2 hs hp hne
    rw [heq]
    simp only [alLossPairsSpec, alLossPairsFrom]
    apply List.mem_flatMap.2
    refine ⟨(rid, es2), hp, ?_⟩
    exact List.mem_map.2 ⟨s, List.mem_filter.2 ⟨hs, by simpa using hne⟩, rfl⟩
  · intro hz
    simp [alOverallLoss, hz]
  · intro hpos
    simp [alOverallLoss, if_pos hpos]

/-- Concrete analyze_logs.py input for the C3 counterexample: one file,
receiver `BBBB`, with records from senders `AAAA` and `CCCC`. -/
def c3files : List (List (List Char)) :=
  [["# Receiver Device ID: BBBB".data, "AAAA,0,0,0,0,8,-90,1".data,
    "CCCC,0,0,0,0,8,-90,1".data]]

/-- C3 counterexample: in analyze_logs.py the pair `(AAAA, CCCC)` has
distinct devices of the observed device set and a positive expected count,
so the claim includes it among the pairs the totals range over; but the
loop iterates receivers only over file-owning devices, computes exactly the
two pairs with receiver `BBBB`, and its totals (2/2, overall loss 0) omit
that pair — the claimed sum over all six such pairs would differ. -/
theorem c3_counterexample :
    ("AAAA".data, "CCCC".data) ∈ alClaimedPairs c3files ∧
      0 < alExpected c3files "AAAA".data ∧
      (alLoss c3files).2.2.map (fun row => (row.sender, row.receiver)) =
        [("AAAA".data, "BBBB".data), ("CCCC".data, "BBBB".data)] ∧
      (alLoss c3files).1 = 2 ∧ (alLoss c3files).2.1 = 2 ∧
      (alClaimedPairs c3files).length = 6 ∧ (alLoss c3files).2.2.length = 2 ∧
      alOverallLoss c3files = 0 := by
  refine ⟨by decide, by decide, by decide, by decide, by decide, by decide, by decide, ?_⟩
  have h1 : (alLoss c3files).1 = 2 := by decide
  have h2 : (alLoss c3files).2.1 = 2 := by decide
  rw [alOverallLoss]
  simp only [h1, h2]
  norm_num

/-- C3 (amended): in `analyze_network` (analyze_test_log.py) the claim
holds as stated — per-pair formula, totals over exactly the ordered
non-self device pairs with positive sent count, guarded overall loss.  In
analyze_logs.py the per-pair formula, the guarded overall loss, the zero
case and self-pair exclusion also hold, but the totals range over exactly
the non-self pairs of `sorted(all_senders) × sorted(all_data)` — senders
paired with file-owning receivers only — not over all ordered device-set
pairs with positive expected count. -/
theorem c3_compute_loss_amended (logs : List Log6) (files : List (List (List Char)))
    (h : ∀ lg ∈ logs, 0 ≤ lg.seq_num) :
    ((∀ row ∈ (analyzeLoss logs).2.2,
        row.sender ≠ row.receiver ∧ 0 < row.expected ∧
          row.loss = (1 - (row.received : ℚ) / (row.expected : ℚ)) * 100) ∧
      (analyzeLoss logs).2.2 = lossPairsSpec logs ∧
      (analyzeLoss logs).1 = ((lossPairsSpec logs).map LossRow.expected).sum ∧
      (analyzeLoss logs).2.1 = ((lossPairsSpec logs).map LossRow.received).sum ∧
      (∀ s r, s ∈ sortedDevices logs → r ∈ sortedDevices logs → s ≠ r →
          0 < totalSent logs s → specRow logs s r ∈ (analyzeLoss logs).2.2) ∧
      ((analyzeLoss logs).1 = 0 → overallLoss logs = 0) ∧
      (0 < (analyzeLoss logs).1 →
          overallLoss logs =
            (1 - ((analyzeLoss logs).2.1 : ℚ) / ((analyzeLoss logs).1 : ℚ)) * 100)) ∧
    ((∀ row ∈ (alLoss files).2.2,
        row.sender ≠ row.receiver ∧ 0 < row.expected ∧
          row.loss = (1 - (row.received : ℚ) / (row.expected : ℚ)) * 100) ∧
      (alLoss files).2.2 = alLossPairsSpec files ∧
      (alLoss files).1 = ((alLossPairsSpec files).map ALLossRow.expected).sum ∧
      (alLoss files).2.1 = ((alLossPairsSpec files).map ALLossRow.received).sum ∧
      (∀ s rid es2, s ∈ alSenders files → (rid, es2) ∈ sortAssoc (alData files) → s ≠ rid →
          alSpecRow files s rid es2 ∈ (alLoss files).2.2) ∧
      ((alLoss files).1 = 0 → alOverallLoss files = 0) ∧
      (0 < (alLoss files).1 →
          alOverallLoss files =
            (1 - ((alLoss files).2.1 : ℚ) / ((alLoss files).1 : ℚ)) * 100)) :=
  ⟨analyzeNetwork_loss_props logs h, alLoss_props files⟩

/-- Witness for the amended C3 at concrete inputs. -/
theorem c3_witness :
    (∀ lg ∈ c3logs, 0 ≤ lg.seq_num) ∧
      (((∀ row ∈ (analyzeLoss c3logs).2.2,
          row.sender ≠ row.receiver ∧ 0 < row.expected ∧
            row.loss = (1 - (row.received : ℚ) / (row.expected : ℚ)) * 100) ∧
        (analyzeLoss c3logs).2.2 = lossPairsSpec c3logs ∧
        (analyzeLoss c3logs).1 = ((lossPairsSpec c3logs).map LossRow.expected).sum ∧
        (analyzeLoss c3logs).2.1 = ((lossPairsSpec c3logs).map LossRow.received).sum ∧
        (∀ s r, s ∈ sortedDevices c3logs → r ∈ sortedDevices c3logs → s ≠ r →
            0 < totalSent c3logs s → specRow c3logs s r ∈ (analyzeLoss c3logs).2.2) ∧
        ((analyzeLoss c3logs).1 = 0 → overallLoss c3logs = 0) ∧
        (0 < (analyzeLoss c3logs).1 →
            overallLoss c3logs =
              (1 - ((analyzeLoss c3logs).2.1 : ℚ) / ((analyzeLoss c3logs).1 : ℚ)) * 100)) ∧
      ((∀ row ∈ (alLoss c3files).2.2,
          row.sender ≠ row.receiver ∧ 0 < row.expected ∧
            row.loss = (1 - (row.received : ℚ) / (row.expected : ℚ)) * 100) ∧
        (alLoss c3files).2.2 = alLossPairsSpec c3files ∧
        (alLoss c3files).1 = ((alLossPairsSpec c3files).map ALLossRow.expected).sum ∧
        (alLoss c3files).2.1 = ((alLossPairsSpec c3files).map ALLossRow.received).sum ∧
        (∀ s rid es2, s ∈ alSenders c3files → (rid, es2) ∈ sortAssoc (alData c3files) →
            s ≠ rid → alSpecRow c3files s rid es2 ∈ (alLoss c3files).2.2) ∧
        ((alLoss c3files).1 = 0 → alOverallLoss c3files = 0) ∧
        (0 < (alLoss c3files).1 →
            alOverallLoss c3files =
              (1 - ((alLoss c3files).2.1 : ℚ) / ((alLoss c3files).1 : ℚ)) * 100))) :=
  ⟨by decide, c3_compute_loss_amended c3logs c3files (by decide)⟩
